import Mathlib

/-!
Shallow embedding of the cypress-mcp server (Python sources
`cypress_mcp_connector.py` and `mcp_websocket_server.py`) and proofs about it.

The filesystem, the process working directory and the child-process spawn are
modelled explicitly; each Python function is translated into a Lean function
over these models.
-/

namespace CypressMCP

/-- Model of `os.path.join a b` for a relative second component: the two parts
joined with a single slash. -/
def joinPath (a b : String) : String := a ++ "/" ++ b

/-- Model of the Python `str.endswith` test: the suffix test on the character data.
(Defined over `List Char` so that concrete instances reduce in the kernel.) -/
def endswith (s suffix : String) : Bool := suffix.data.isSuffixOf s.data

/-- Kind of a directory entry: regular file or subdirectory.  `os.listdir`
returns the names of entries of both kinds. -/
inductive EntryKind
  | file
  | dir
deriving DecidableEq, Repr

/-- One entry of a directory listing: a name together with its kind. -/
structure DirEntry where
  name : String
  kind : EntryKind
deriving DecidableEq, Repr

/-- Model filesystem: the set of existing directory paths, and the regular
files as (path, content) pairs.  Lookup takes the first matching file entry. -/
structure FileSystem where
  dirs : List String
  files : List (String × String)
deriving DecidableEq, Repr

/-- Model of `os.path.exists p`: true if `p` exists as a directory or file. -/
def pathExists (fs : FileSystem) (p : String) : Bool :=
  fs.dirs.contains p || fs.files.any (fun kv => kv.1 == p)

/-- Model of `open(dir/name, "w")` followed by `f.write(content)`: succeeds
iff the parent directory exists, and then replaces the complete file body
(creating the file or overwriting an existing one); otherwise the I/O error
is raised, modelled as the `error` branch. -/
def writeFile (fs : FileSystem) (dir name content : String) :
    Except String FileSystem :=
  if fs.dirs.contains dir then
    Except.ok { fs with
      files := (joinPath dir name, content) ::
        fs.files.filter (fun kv => !(kv.1 == joinPath dir name)) }
  else
    Except.error ("No such file or directory: " ++ joinPath dir name)

/-- Model of reading a file back: the content stored at `path`, if any. -/
def readFile (fs : FileSystem) (path : String) : Option String :=
  (fs.files.find? (fun kv => kv.1 == path)).map (fun kv => kv.2)

/-!
## `CypressMCPConnector.validate_project_structure` and construction
(`cypress_mcp_connector.py`, lines 10-33)
-/

/-- The `required_dirs` list of `validate_project_structure`. -/
def required_dirs : List String := ["cypress", "cypress/e2e", "cypress/fixtures"]

/-- Embedding of `validate_project_structure`: the loop raises `ValueError`
at the first required directory whose joined path does not exist. -/
def validate_project_structure (fs : FileSystem) (project_path : String) :
    Except String Unit :=
  match required_dirs.find? (fun d => !pathExists fs (joinPath project_path d)) with
  | some d => Except.error ("Missing required directory: " ++ joinPath project_path d)
  | none => Except.ok ()

/-- The connector object: after successful construction it is bound to its
project root. -/
structure CypressMCPConnector where
  project_path : String
deriving DecidableEq, Repr

/-- Embedding of `CypressMCPConnector.__init__`: validation runs inside the
constructor, so a failed validation means no connector object is produced. -/
def initConnector (fs : FileSystem) (project_path : String) :
    Except String CypressMCPConnector :=
  match validate_project_structure fs project_path with
  | Except.ok _ => Except.ok ⟨project_path⟩
  | Except.error e => Except.error e

/-!
## `CypressMCPConnector.list_available_tests`
(`cypress_mcp_connector.py`, lines 35-47)

The function takes the result of `os.listdir` on `<root>/cypress/e2e`
(modelled as the entry list of that directory; `os.listdir` yields the names
of all entries, files and subdirectories alike) and keeps the names ending in
one of the two recognized suffixes, prefixing each with `cypress/e2e`.
-/

/-- Embedding of `list_available_tests`. -/
def list_available_tests (e2eEntries : List DirEntry) : List String :=
  ((e2eEntries.map DirEntry.name).filter
      (fun f => endswith f ".cy.js" || endswith f ".cy.ts")).map
    (fun f => joinPath (joinPath "cypress" "e2e") f)

/-!
## `CypressMCPConnector.run_cypress_tests`
(`cypress_mcp_connector.py`, lines 49-96)
-/

/-- Python truthiness of the `test_specs` argument: `not test_specs` is true
for `None` and for the empty list. -/
def testSpecsFalsy : Option (List String) → Bool
  | none => true
  | some l => l.isEmpty

/-- The spec list actually used: `if not test_specs: test_specs =
self.list_available_tests()`. -/
def resolveSpecs (e2eEntries : List DirEntry)
    (test_specs : Option (List String)) : List String :=
  if testSpecsFalsy test_specs then list_available_tests e2eEntries
  else test_specs.getD []

/-- The `cypress_cmd` list built at lines 64-68, with `",".join(test_specs)`
as the `--spec` argument. -/
def buildCypressCmd (browser : String) (test_specs : List String) : List String :=
  ["npx", "cypress", "run", "--browser", browser,
    "--spec", String.intercalate "," test_specs]

/-- Outcome of `subprocess.run` on a given command: either the process
completed (with captured stdout, stderr and exit code) or the invocation
raised (e.g. the executable is missing). -/
inductive SpawnOutcome
  | completed (stdout stderr : String) (returncode : Int)
  | raised (msg : String)
deriving DecidableEq, Repr

/-- The dictionary returned by `run_cypress_tests`: either the four-field
result of an observed process, or the `{"success": False, "error": e}`
dictionary of the `except` branch. -/
inductive RunResult
  | completed (success : Bool) (stdout stderr : String) (return_code : Int)
  | failed (error : String)
deriving DecidableEq, Repr

/-- The `success` field of a run result. -/
def RunResult.isSuccess : RunResult → Bool
  | .completed s _ _ _ => s
  | .failed _ => false

/-- Process-global state: the current working directory mutated by
`os.chdir`. -/
structure ProcState where
  cwd : String
deriving DecidableEq, Repr

/-- Embedding of `run_cypress_tests`.  `e2eEntries` is the listing of
`<root>/cypress/e2e` consulted when the spec list is falsy, and `spawn` is the
behaviour of `subprocess.run` on the command it receives.  `os.chdir` to the
validated project root is modelled as always succeeding.  The function
returns the result dictionary together with the process state after the call:
on the completed path the working directory is restored to `original_dir`,
while on the raised path the `except` clause returns directly, leaving the
working directory at the project root. -/
def run_cypress_tests (e2eEntries : List DirEntry)
    (spawn : List String → SpawnOutcome)
    (project_path : String) (st : ProcState)
    (test_specs : Option (List String)) (browser : String) :
    RunResult × ProcState :=
  let specs := resolveSpecs e2eEntries test_specs
  let cypress_cmd := buildCypressCmd browser specs
  let original_dir := st.cwd
  let st1 : ProcState := { cwd := project_path }
  match spawn cypress_cmd with
  | SpawnOutcome.completed stdout stderr returncode =>
      let st2 : ProcState := { cwd := original_dir }
      (RunResult.completed (returncode == 0) stdout stderr returncode, st2)
  | SpawnOutcome.raised e =>
      (RunResult.failed e, st1)

/-!
## `CypressMCPConnector.create_test_file`
(`cypress_mcp_connector.py`, lines 98-130)
-/

/-- The filename adjustment at lines 108-109: append `.cy.js` when neither
recognized suffix is present. -/
def resolveFilename (filename : String) : String :=
  if !endswith filename ".cy.js" && !endswith filename ".cy.ts" then
    filename ++ ".cy.js"
  else filename

/-- The dictionary returned by `create_test_file`: `{"success": True,
"file_path": p}` or `{"success": False, "error": e}`. -/
inductive CreateResult
  | ok (file_path : String)
  | err (error : String)
deriving DecidableEq, Repr

/-- The `success` field of a creation result. -/
def CreateResult.isSuccess : CreateResult → Bool
  | .ok _ => true
  | .err _ => false

/-- Embedding of `create_test_file`: resolve the filename, build the path
`<root>/cypress/integration/<filename>`, try the write, and report any I/O
error through the failure branch instead of raising.  Returns the result
dictionary and the filesystem after the call. -/
def create_test_file (fs : FileSystem) (project_path filename content : String) :
    CreateResult × FileSystem :=
  let filename1 := resolveFilename filename
  let dir := joinPath (joinPath project_path "cypress") "integration"
  match writeFile fs dir filename1 content with
  | Except.ok fs1 => (CreateResult.ok (joinPath dir filename1), fs1)
  | Except.error e => (CreateResult.err e, fs)

/-!
## `CypressMCPServer.handle_message`
(`mcp_websocket_server.py`, lines 18-65)

One connection delivers a sequence of messages; the handler decodes each,
dispatches on the `type` field, and sends exactly one response per message
(even an unrecognized `type` sends the serialized empty dictionary `{}`);
any exception during a message is caught at the per-message boundary and
reported through an `error` envelope, after which the loop continues with
the next message.
-/

/-- The fields of a decoded request dictionary that the handler reads with
`msg_data.get(...)`; an absent key yields `none`. -/
structure MsgData where
  type : Option String
  specs : Option (List String)
  browser : Option String
  filename : Option String
  content : Option String
deriving DecidableEq, Repr

/-- One inbound message as the handler observes it: either `json.loads`
raises (malformed body), or it yields a dictionary.  A well-formed request
carries the environment of its handling: `fault`, when set, models the
dispatched connector call raising that exception, and `spawn` is the
`subprocess.run` behaviour used if the message is a `run_tests` request. -/
inductive MessageEvent
  | malformed (err : String)
  | request (data : MsgData) (fault : Option String)
      (spawn : List String → SpawnOutcome)

/-- A serialized response sent back on the connection.  `empty` is
`json.dumps({})`, the response sent when no dispatch arm matched. -/
inductive Response
  | empty
  | testList (tests : List String)
  | testResults (r : RunResult)
  | testCreation (r : CreateResult)
  | error (message : String)
deriving DecidableEq, Repr

/-- The state a connection handler acts on: the project root of the connector,
the listing of `<root>/cypress/e2e`, the filesystem, and the process-global
working directory. -/
structure ServerState where
  project_path : String
  e2eEntries : List DirEntry
  fs : FileSystem
  proc : ProcState

/-- Embedding of the body of the `async for` loop for a single message:
the response sent for it and the state afterwards.  A missing `filename` or
`content` on a `create_test` request makes the handler raise (an attribute
error on `None`), reported like any handler fault through the error
envelope. -/
def handle_message_once (st : ServerState) : MessageEvent → Response × ServerState
  | MessageEvent.malformed e => (Response.error e, st)
  | MessageEvent.request data fault spawn =>
    match data.type with
    | some "list_tests" =>
        match fault with
        | some e => (Response.error e, st)
        | none => (Response.testList (list_available_tests st.e2eEntries), st)
    | some "run_tests" =>
        match fault with
        | some e => (Response.error e, st)
        | none =>
            let r := run_cypress_tests st.e2eEntries spawn st.project_path
              st.proc data.specs (data.browser.getD "chrome")
            (Response.testResults r.1, { st with proc := r.2 })
    | some "create_test" =>
        match fault with
        | some e => (Response.error e, st)
        | none =>
            match data.filename, data.content with
            | some filename, some content =>
                let r := create_test_file st.fs st.project_path filename content
                (Response.testCreation r.1, { st with fs := r.2 })
            | _, _ => (Response.error "NoneType field in create_test request", st)
    | _ => (Response.empty, st)

/-- Embedding of `handle_message` over a whole connection: the sequence of
responses sent for the delivered messages, processed strictly in order; no
message terminates the loop. -/
def handle_message (st : ServerState) : List MessageEvent → List Response
  | [] => []
  | ev :: rest =>
      let r := handle_message_once st ev
      r.1 :: handle_message r.2 rest

/-!
## Helper lemmas
-/

/-- Strings with equal character data are equal. -/
theorem string_data_inj {a b : String} (h : a.data = b.data) : a = b := by
  cases a
  cases b
  exact congrArg String.mk h

/-- Character data of an appended string. -/
theorem string_data_append (a b : String) : (a ++ b).data = a.data ++ b.data := by
  cases a
  cases b
  rfl

/-- Joining distinct names onto the same directory gives distinct paths. -/
theorem joinPath_left_inj {p a b : String} (h : joinPath p a = joinPath p b) :
    a = b := by
  have h1 : (p ++ "/").data ++ a.data = (p ++ "/").data ++ b.data := by
    have h2 := congrArg String.data h
    simpa [joinPath, string_data_append] using h2
  exact string_data_inj (List.append_cancel_left h1)

/-- When every required directory exists, construction succeeds and the
connector is bound to the given root. -/
theorem initConnector_ok (fs : FileSystem) (root : String)
    (h : ∀ d ∈ required_dirs, pathExists fs (joinPath root d) = true) :
    initConnector fs root = Except.ok ⟨root⟩ := by
  have hfind : required_dirs.find? (fun d => !pathExists fs (joinPath root d)) = none := by
    rw [List.find?_eq_none]
    intro d hd
    simp [h d hd]
  simp [initConnector, validate_project_structure, hfind]

/-- When some required directory is missing, construction raises. -/
theorem initConnector_error (fs : FileSystem) (root d : String)
    (hd : d ∈ required_dirs) (h : pathExists fs (joinPath root d) = false) :
    ∃ msg, initConnector fs root = Except.error msg := by
  have hsome : (required_dirs.find? (fun x => !pathExists fs (joinPath root x))).isSome := by
    rw [List.find?_isSome]
    exact ⟨d, hd, by simp [h]⟩
  obtain ⟨d1, hd1⟩ := Option.isSome_iff_exists.mp hsome
  refine ⟨"Missing required directory: " ++ joinPath root d1, ?_⟩
  simp [initConnector, validate_project_structure, hd1]

/-- A spec list that is exactly the current listing resolves to itself. -/
theorem resolveSpecs_self (e2eEntries : List DirEntry) :
    resolveSpecs e2eEntries (some (list_available_tests e2eEntries)) =
      list_available_tests e2eEntries := by
  simp only [resolveSpecs, testSpecsFalsy, Option.getD_some]
  split <;> rfl

/-- A request whose `type` matches none of the three dispatch arms produces
the empty response and leaves the state unchanged. -/
theorem handle_once_unrecognized (st : ServerState) (data : MsgData)
    (fault : Option String) (spawn : List String → SpawnOutcome)
    (h1 : data.type ≠ some "list_tests")
    (h2 : data.type ≠ some "run_tests")
    (h3 : data.type ≠ some "create_test") :
    handle_message_once st (MessageEvent.request data fault spawn) =
      (Response.empty, st) := by
  unfold handle_message_once
  split <;> simp_all

/-!
## Concrete instances used by witnesses and counterexamples
-/

/-- A project root with exactly the three validated subdirectories. -/
def demoFS : FileSystem :=
  { dirs := ["/project/cypress", "/project/cypress/e2e", "/project/cypress/fixtures"],
    files := [] }

/-- A project root missing `cypress/fixtures`. -/
def demoFSmissing : FileSystem :=
  { dirs := ["/project/cypress", "/project/cypress/e2e"], files := [] }

/-- A project root that additionally has the `cypress/integration` write
target. -/
def demoFSfull : FileSystem :=
  { dirs := ["/project/cypress", "/project/cypress/e2e", "/project/cypress/fixtures",
      "/project/cypress/integration"], files := [] }

/-- A spec-directory listing holding one subdirectory whose name carries a
recognized suffix. -/
def c3entries : List DirEntry := [{ name := "subdir.cy.js", kind := EntryKind.dir }]

/-- A server state over `demoFS` with an empty spec directory. -/
def demoState : ServerState :=
  { project_path := "/project", e2eEntries := [], fs := demoFS,
    proc := { cwd := "/home/caller" } }

/-- A spawn behaviour where the executable is missing: every invocation
raises. -/
def spawnMissing : List String → SpawnOutcome :=
  fun _ => SpawnOutcome.raised "FileNotFoundError"

/-- A request with an unrecognized `type`. -/
def bogusRequest : MsgData :=
  { type := some "bogus", specs := none, browser := none, filename := none,
    content := none }

/-- A well-formed `list_tests` request. -/
def listRequest : MsgData :=
  { type := some "list_tests", specs := none, browser := none, filename := none,
    content := none }

/-!
## Claim theorems
-/

/-- C5: for every project root in which all required subdirectories exist,
construction succeeds and binds the connector to that root; for every root in
which any one required subdirectory is absent, construction raises a
configuration error, so no connector object is produced (no partial or
degraded mode). -/
theorem C5_construction (fs : FileSystem) (root : String) :
    ((∀ d ∈ required_dirs, pathExists fs (joinPath root d) = true) →
      initConnector fs root = Except.ok ⟨root⟩) ∧
    (∀ d ∈ required_dirs, pathExists fs (joinPath root d) = false →
      ∃ msg, initConnector fs root = Except.error msg) :=
  ⟨initConnector_ok fs root, fun d hd h => initConnector_error fs root d hd h⟩

/-- Witness for C5 on concrete roots: one with all three directories, one
missing `cypress/fixtures`. -/
theorem C5_construction_witness :
    initConnector demoFS "/project" = Except.ok ⟨"/project"⟩ ∧
    ∃ msg, initConnector demoFSmissing "/project" = Except.error msg :=
  ⟨(C5_construction demoFS "/project").1 (by decide),
   (C5_construction demoFSmissing "/project").2 "cypress/fixtures" (by decide) (by decide)⟩

/-- C7: writing a spec file and reading back the returned resolved path
yields exactly the content passed in; the write replaces the complete file
body.  The hypothesis says the fixed write-target directory exists, i.e. the
write itself succeeds. -/
theorem C7_roundtrip (fs : FileSystem) (root filename content : String)
    (h : fs.dirs.contains (joinPath (joinPath root "cypress") "integration") = true) :
    ∃ p fs1, create_test_file fs root filename content = (CreateResult.ok p, fs1) ∧
      readFile fs1 p = some content := by
  refine ⟨joinPath (joinPath (joinPath root "cypress") "integration")
      (resolveFilename filename),
    { fs with files :=
        (joinPath (joinPath (joinPath root "cypress") "integration")
            (resolveFilename filename), content) ::
          fs.files.filter (fun kv => !(kv.1 ==
            joinPath (joinPath (joinPath root "cypress") "integration")
              (resolveFilename filename))) }, ?_, ?_⟩
  · have hmem : joinPath (joinPath root "cypress") "integration" ∈ fs.dirs := by
      simpa using h
    simp [create_test_file, writeFile, hmem]
  · simp [readFile, List.find?]

/-- Witness for C7: round-trip of content "X" through filename "login" on a
root having `cypress/integration`. -/
theorem C7_roundtrip_witness :
    ∃ p fs1, create_test_file demoFSfull "/project" "login" "X" =
        (CreateResult.ok p, fs1) ∧ readFile fs1 p = some "X" :=
  C7_roundtrip demoFSfull "/project" "login" "X" (by decide)

/-- C8: a filename lacking both recognized suffixes gets the default suffix
`.cy.js` appended; a filename already ending in a recognized suffix is kept
unchanged. -/
theorem C8_suffix_handling (filename : String) :
    (endswith filename ".cy.js" = false → endswith filename ".cy.ts" = false →
      resolveFilename filename = filename ++ ".cy.js") ∧
    ((endswith filename ".cy.js" = true ∨ endswith filename ".cy.ts" = true) →
      resolveFilename filename = filename) := by
  constructor
  · intro h1 h2
    simp [resolveFilename, h1, h2]
  · intro h
    rcases h with h | h <;> simp [resolveFilename, h]

/-- Witness for C8: "foo" becomes "foo.cy.js" and "foo.cy.ts" is kept. -/
theorem C8_suffix_handling_witness :
    resolveFilename "foo" = "foo" ++ ".cy.js" ∧
    resolveFilename "foo.cy.ts" = "foo.cy.ts" :=
  ⟨(C8_suffix_handling "foo").1 (by decide) (by decide),
   (C8_suffix_handling "foo.cy.ts").2 (Or.inr (by decide))⟩

/-- C10: construction does not check `cypress/integration`; on a root with
the three validated directories but no `cypress/integration`, construction
succeeds and a subsequent write returns the failure dictionary (with the
filesystem unchanged) instead of raising. -/
theorem C10_integration_not_required (fs : FileSystem) (root : String)
    (hreq : ∀ d ∈ required_dirs, pathExists fs (joinPath root d) = true)
    (hint : fs.dirs.contains (joinPath (joinPath root "cypress") "integration") = false)
    (filename content : String) :
    initConnector fs root = Except.ok ⟨root⟩ ∧
    ∃ msg, create_test_file fs root filename content = (CreateResult.err msg, fs) := by
  refine ⟨initConnector_ok fs root hreq,
    "No such file or directory: " ++
      joinPath (joinPath (joinPath root "cypress") "integration")
        (resolveFilename filename), ?_⟩
  have hmem : joinPath (joinPath root "cypress") "integration" ∉ fs.dirs := by
    simpa using hint
  simp [create_test_file, writeFile, hmem]

/-- Witness for C10: `demoFS` has no `cypress/integration`; construction
succeeds there and the write reports failure. -/
theorem C10_integration_not_required_witness :
    initConnector demoFS "/project" = Except.ok ⟨"/project"⟩ ∧
    ∃ msg, create_test_file demoFS "/project" "login" "X" =
      (CreateResult.err msg, demoFS) :=
  C10_integration_not_required demoFS "/project" (by decide) (by decide) "login" "X"

/-- C1 (failing input): when the spawn raises (executable missing), the
`except` clause of `run_cypress_tests` returns before `os.chdir(original_dir)`
runs, so the process working directory after the call is the project root,
not the original directory of the caller.  This contradicts the required
restoration on all exit paths. -/
theorem C1_cwd_not_restored_on_spawn_failure :
    (run_cypress_tests [] (fun _ => SpawnOutcome.raised "FileNotFoundError: npx")
        "/project" ⟨"/home/caller"⟩ none "chrome").2 = ⟨"/project"⟩ ∧
    ProcState.mk "/project" ≠ ⟨"/home/caller"⟩ := by
  exact ⟨rfl, by decide⟩

/-- C6: a run with an absent or empty spec list resolves to the current
listing, so it builds exactly the command (equal `--spec` argument) that a
run with the listing passed explicitly builds, and the whole call behaves
identically for every spawn behaviour. -/
theorem C6_empty_specs_same_command (e2eEntries : List DirEntry) (browser : String)
    (spawn : List String → SpawnOutcome) (project_path : String) (st : ProcState) :
    buildCypressCmd browser (resolveSpecs e2eEntries none) =
      buildCypressCmd browser
        (resolveSpecs e2eEntries (some (list_available_tests e2eEntries))) ∧
    buildCypressCmd browser (resolveSpecs e2eEntries (some [])) =
      buildCypressCmd browser
        (resolveSpecs e2eEntries (some (list_available_tests e2eEntries))) ∧
    run_cypress_tests e2eEntries spawn project_path st none browser =
      run_cypress_tests e2eEntries spawn project_path st
        (some (list_available_tests e2eEntries)) browser ∧
    run_cypress_tests e2eEntries spawn project_path st (some []) browser =
      run_cypress_tests e2eEntries spawn project_path st
        (some (list_available_tests e2eEntries)) browser := by
  have hnone : resolveSpecs e2eEntries none = list_available_tests e2eEntries := rfl
  have hempty : resolveSpecs e2eEntries (some []) = list_available_tests e2eEntries := rfl
  refine ⟨?_, ?_, ?_, ?_⟩ <;>
    simp [run_cypress_tests, hnone, hempty, resolveSpecs_self]

/-- C9: when the spawn of the built command raises, `run_cypress_tests` does
not raise to the caller; it returns the failure-branch dictionary whose
`error` field is the exception text and whose `success` field is false. -/
theorem C9_spawn_failure_is_reported (e2eEntries : List DirEntry)
    (spawn : List String → SpawnOutcome) (project_path : String) (st : ProcState)
    (test_specs : Option (List String)) (browser msg : String)
    (h : spawn (buildCypressCmd browser (resolveSpecs e2eEntries test_specs)) =
      SpawnOutcome.raised msg) :
    (run_cypress_tests e2eEntries spawn project_path st test_specs browser).1 =
      RunResult.failed msg ∧
    ((run_cypress_tests e2eEntries spawn project_path st test_specs browser).1).isSuccess
      = false := by
  unfold run_cypress_tests
  simp [h, RunResult.isSuccess]

/-- Witness for C9: the spawn raises `FileNotFoundError` and the call
returns the failure dictionary. -/
theorem C9_spawn_failure_is_reported_witness :
    (run_cypress_tests [] spawnMissing "/project" ⟨"/home/caller"⟩ none "chrome").1 =
      RunResult.failed "FileNotFoundError" ∧
    ((run_cypress_tests [] spawnMissing "/project" ⟨"/home/caller"⟩ none "chrome").1).isSuccess
      = false :=
  C9_spawn_failure_is_reported [] spawnMissing "/project" ⟨"/home/caller"⟩ none
    "chrome" "FileNotFoundError" rfl

/-- C3 (counterexample): a subdirectory of the spec directory whose name ends
in `.cy.js` is included in the listing, because the filter looks only at the
name of the entry, so the claim that subdirectories are excluded is false. -/
theorem C3_counterexample :
    ({ name := "subdir.cy.js", kind := EntryKind.dir } : DirEntry) ∈ c3entries ∧
    joinPath (joinPath "cypress" "e2e") "subdir.cy.js" ∈
      list_available_tests c3entries := by
  decide

/-- C3 (amended): the listing contains `cypress/e2e/<f>` exactly when the
directory has an entry named `f` — of either kind, file or subdirectory —
whose name ends in `.cy.js` or `.cy.ts`; entries with any other name (e.g.
`.txt` files) are excluded. -/
theorem C3_filter_by_name (entries : List DirEntry) (f : String) :
    (joinPath (joinPath "cypress" "e2e") f ∈ list_available_tests entries) ↔
      (f ∈ entries.map DirEntry.name ∧
        (endswith f ".cy.js" || endswith f ".cy.ts") = true) := by
  unfold list_available_tests
  rw [List.mem_map]
  constructor
  · rintro ⟨g, hg, hEq⟩
    have hgf : g = f := joinPath_left_inj hEq
    subst hgf
    rw [List.mem_filter] at hg
    exact ⟨hg.1, hg.2⟩
  · rintro ⟨hmem, hsuf⟩
    exact ⟨f, List.mem_filter.mpr ⟨hmem, hsuf⟩, rfl⟩

/-- Witness for C3 (amended): a name with a recognized suffix present in the
listing of `c3entries`. -/
theorem C3_filter_by_name_witness :
    joinPath (joinPath "cypress" "e2e") "subdir.cy.js" ∈
      list_available_tests c3entries :=
  (C3_filter_by_name c3entries "subdir.cy.js").mpr ⟨by decide, by decide⟩

/-- C2 (counterexample): a well-formed message with an unrecognized `type`
does get a response — the serialized empty dictionary — so "no response
message at all" is false. -/
theorem C2_counterexample :
    handle_message demoState [MessageEvent.request bogusRequest none spawnMissing] =
      [Response.empty] ∧
    handle_message demoState [MessageEvent.request bogusRequest none spawnMissing] ≠
      ([] : List Response) := by
  constructor
  · rfl
  · intro hcontra
    have h0 : handle_message demoState
        [MessageEvent.request bogusRequest none spawnMissing] = [Response.empty] := rfl
    have h1 : ([Response.empty] : List Response) = [] := h0.symm.trans hcontra
    simp at h1

/-- C2 (amended): for every well-formed message whose `type` is absent or
matches none of the three dispatch arms, the server sends exactly one
response, the empty JSON object `{}`, leaves the state unchanged, and the
connection remains usable: the remaining messages are handled as if the
unrecognized one had not occurred. -/
theorem C2_unrecognized_type_empty_response (st : ServerState) (data : MsgData)
    (fault : Option String) (spawn : List String → SpawnOutcome)
    (rest : List MessageEvent)
    (h1 : data.type ≠ some "list_tests")
    (h2 : data.type ≠ some "run_tests")
    (h3 : data.type ≠ some "create_test") :
    handle_message st (MessageEvent.request data fault spawn :: rest) =
      Response.empty :: handle_message st rest := by
  have h := handle_once_unrecognized st data fault spawn h1 h2 h3
  simp [handle_message, h]

/-- Witness for C2 (amended): the `bogus` request gets the empty response on
a connection that then goes on. -/
theorem C2_unrecognized_type_empty_response_witness :
    handle_message demoState [MessageEvent.request bogusRequest none spawnMissing] =
      Response.empty :: handle_message demoState [] :=
  C2_unrecognized_type_empty_response demoState bogusRequest none spawnMissing []
    (by decide) (by decide) (by decide)

/-- C4: if decoding fails, or the dispatched handler raises, the server
catches at the per-message boundary and sends the error envelope on the same
connection, and the connection is not closed: the remaining messages are
processed exactly as before. -/
theorem C4_per_message_error_boundary (st : ServerState) (rest : List MessageEvent) :
    (∀ e, handle_message st (MessageEvent.malformed e :: rest) =
      Response.error e :: handle_message st rest) ∧
    (∀ data fault spawn e, fault = some e →
      (data.type = some "list_tests" ∨ data.type = some "run_tests" ∨
        data.type = some "create_test") →
      handle_message st (MessageEvent.request data fault spawn :: rest) =
        Response.error e :: handle_message st rest) := by
  constructor
  · intro e
    simp [handle_message, handle_message_once]
  · rintro data fault spawn e rfl (ht | ht | ht) <;>
      simp [handle_message, handle_message_once, ht]

/-- Witness for C4: a malformed message yields the error envelope and the
next valid `list_tests` message on the same connection is still answered. -/
theorem C4_per_message_error_boundary_witness :
    handle_message demoState
        [MessageEvent.malformed "Expecting value: line 1 column 1",
         MessageEvent.request listRequest none spawnMissing] =
      [Response.error "Expecting value: line 1 column 1", Response.testList []] := by
  have h := (C4_per_message_error_boundary demoState
      [MessageEvent.request listRequest none spawnMissing]).1
    "Expecting value: line 1 column 1"
  rw [h]
  rfl

end CypressMCP
